import Mathlib

/-!
Shallow embedding of the focus-driven navigation engine of the
webtv-playwright test framework:

* `normalise` and `waitForFocusChange` from `src/utils/navigationHelpers.js`;
* `navigateToApp` and `addAppToFavoritesFromAppsPage` from
  `src/pages/HomeScreenPage.js`;
* `NavigationBar.navigateToMenuItemByName` from
  `src/components/NavigationBar.js`.

External UI reads are modelled as call streams: the n-th invocation of a
focus accessor returns element n of a stream `Nat → Option String`
(a `data-testid` attribute string, or `none` when no element is focused).
Each modelled operation threads the call counter explicitly, so "the
accessor was never invoked" is visible as an unchanged counter.

Time: the only modelled passage of time is the polling sleep inside
`waitForFocusChange`; the poll of loop iteration k happens at elapsed time
`k * POLLING_INTERVAL`, exactly mirroring the source loop
`while (Date.now() - startTime < timeout)` whose only suspension is
`waitForTimeout(POLLING_INTERVAL)`.

Commands: directional key presses issued by the navigation loops are
counted (or listed) in the results, so "no Command was sent" is a plain
equation on the result.
-/

namespace WebTV

/-- TIMEOUTS.FOCUS_CHANGE from `src/utils/constants.js` (milliseconds). -/
def FOCUS_CHANGE : Nat := 500

/-- TIMEOUTS.POLLING from `src/utils/constants.js` (milliseconds). -/
def POLLING : Nat := 1000

/-- TIMEOUTS.POLLING_INTERVAL from `src/utils/constants.js` (milliseconds). -/
def POLLING_INTERVAL : Nat := 50

/-- NAVIGATION_LIMITS.MAX_RAIL_STEPS from `src/utils/constants.js`. -/
def MAX_RAIL_STEPS : Nat := 50

/-- NAVIGATION_LIMITS.MAX_APP_SEARCH_STEPS from `src/utils/constants.js`. -/
def MAX_APP_SEARCH_STEPS : Nat := 100

/-- NAVIGATION_LIMITS.MAX_MENU_STEPS from `src/utils/constants.js`. -/
def MAX_MENU_STEPS : Nat := 10

/-- NAVIGATION_LIMITS.MAX_DOWN_STEPS from `src/utils/constants.js`. -/
def MAX_DOWN_STEPS : Nat := 15

/-- Remote-control commands issued by the engine (`RemoteControl` in
`src/utils/remoteControl.js`; the key map sends Up to ArrowUp, ...,
Select to Enter, Back to Escape). -/
inductive Command where
  | moveUp
  | moveDown
  | moveLeft
  | moveRight
  | select
  | back
deriving DecidableEq, Repr

/-- Character-level model of JS `String.prototype.toLowerCase` (ASCII
letters lowered; done per character). -/
def jsToLower (s : String) : String :=
  String.mk (s.data.map Char.toLower)

/-- Character-level model of JS `String.prototype.trim`: strip leading and
trailing whitespace characters. -/
def jsTrim (s : String) : String :=
  String.mk (((s.data.dropWhile Char.isWhitespace).reverse.dropWhile
    Char.isWhitespace).reverse)

/-- Model of `normalise` in `src/utils/navigationHelpers.js`:
`return value ? value.toLowerCase().trim() : '';`.
In JS, `null` and the empty string are falsy; every non-empty string is
truthy (including "0" — string truthiness, not numeric). -/
def normalise : Option String → String
  | none => ""
  | some s => if s = "" then "" else jsTrim (jsToLower s)

/-- JS truthiness of a focus token (`string | null`): `null` and `""` are
falsy, every other string is truthy.  Used by the guard
`currentId && normalise(currentId) === target` in `navigateToApp`. -/
def truthy : Option String → Bool
  | none => false
  | some s => s != ""

/-- Loop body of `waitForFocusChange` (`src/utils/navigationHelpers.js`):

```
const startTime = Date.now();
while (Date.now() - startTime < timeout) {
  const currentValue = await getValueFn();
  if (currentValue !== previousValue) return currentValue;
  await page.waitForTimeout(TIMEOUTS.POLLING_INTERVAL);
}
return previousValue;
```

`k` is the loop iteration (so elapsed time is `k * POLLING_INTERVAL`),
`c` the accessor call counter.  The structural `fuel` argument only
bounds the recursion; the wrapper `waitForFocusChange` supplies
`timeout.toNat / POLLING_INTERVAL + 1`, which the time guard
`k * POLLING_INTERVAL < timeout` can never outlive, so the fuel-0 branch
returns the same value (`previousValue`, counter unchanged) that the
expired time guard would.  Returns the observed value together with the
next call counter. -/
def waitForFocusChangeGo (acc : Nat → Option String) (previousValue : Option String)
    (timeout : Int) : Nat → Nat → Nat → Option String × Nat
  | _, c, 0 => (previousValue, c)
  | k, c, fuel + 1 =>
    if ((k * POLLING_INTERVAL : Nat) : Int) < timeout then
      let currentValue := acc c
      if currentValue ≠ previousValue then (currentValue, c + 1)
      else waitForFocusChangeGo acc previousValue timeout (k + 1) (c + 1) fuel
    else (previousValue, c)

/-- Model of `waitForFocusChange(page, getValueFn, previousValue, timeout)`:
returns the first polled value that differs from `previousValue`, or
`previousValue` once `timeout` has elapsed.  `c` is the accessor call
counter at entry; the second component of the result is the counter after
the call. -/
def waitForFocusChange (acc : Nat → Option String) (previousValue : Option String)
    (timeout : Int) (c : Nat) : Option String × Nat :=
  waitForFocusChangeGo acc previousValue timeout 0 c (timeout.toNat / POLLING_INTERVAL + 1)

/-- Outcome of the Favourite-Apps rail search `navigateToApp`
(`src/pages/HomeScreenPage.js`).  The source returns a boolean with three
distinct return sites; the spec names them as a SearchOutcome:
`Found` is `return true` at the target comparison, `EndOfCollection` is
`return false` when the awaited token equals the pre-move token, and
`StepLimitExceeded` is `return false` after the `for` loop ends. -/
inductive SearchOutcome where
  | Found
  | EndOfCollection
  | StepLimitExceeded
deriving DecidableEq, Repr

/-- Loop of `navigateToApp` (`src/pages/HomeScreenPage.js` lines 92-112):

```
for (let i = 0; i < maxSteps; i++) {
  const currentId = await getFocusedAppTestId();
  if (currentId && normalise(currentId) === target) return true;
  await this.remote.moveRight();
  const newId = await waitForFocusChange(page, getFocusedAppTestId,
                                         currentId, TIMEOUTS.FOCUS_CHANGE);
  if (newId === currentId) return false;   // end of rail
}
return false;                              // max steps reached
```

The first `Nat` argument is the remaining loop budget (`maxSteps - i`),
the second the accessor call counter.  Result: the outcome, the number of
`moveRight` Commands issued, and the final call counter. -/
def navigateToAppGo (acc : Nat → Option String) (target : String) :
    Nat → Nat → SearchOutcome × Nat × Nat
  | 0, c => (.StepLimitExceeded, 0, c)
  | fuel + 1, c =>
    let currentId := acc c
    if truthy currentId = true ∧ normalise currentId = target then
      (.Found, 0, c + 1)
    else
      let r := waitForFocusChange acc currentId (FOCUS_CHANGE : Int) (c + 1)
      if r.1 = currentId then (.EndOfCollection, 1, r.2)
      else
        let rest := navigateToAppGo acc target fuel r.2
        (rest.1, rest.2.1 + 1, rest.2.2)

/-- Model of `navigateToApp(appName, maxSteps)`: normalises the target once
(`const target = normalise(appName);` — `appName` is a string, hence the
`some`) and runs the search loop from call counter 0. -/
def navigateToApp (acc : Nat → Option String) (appName : String) (maxSteps : Nat) :
    SearchOutcome × Nat × Nat :=
  navigateToAppGo acc (normalise (some appName)) maxSteps 0

/-- Environment of `addAppToFavoritesFromAppsPage` (`src/pages/HomeScreenPage.js`):
`railFocused` is the call stream of `isVideoRailItemFocused()` results,
`testId` the call stream of `getFocusedTestId()` results for the Video rail. -/
structure RailEnv where
  railFocused : Nat → Bool
  testId : Nat → Option String

/-- Down-navigation loop of `addAppToFavoritesFromAppsPage`:

```
for (let i = 0; i < NAVIGATION_LIMITS.MAX_DOWN_STEPS; i++) {
  await this.remote.moveDown();
  const hasFocus = await isVideoRailItemFocused();
  if (hasFocus) break;
  if (i < MAX_DOWN_STEPS - 1) await page.waitForLoadState(...);  // no UI read
}
```

`d` is the `railFocused` call counter.  Returns the number of `moveDown`
Commands issued and the counter after the loop. -/
def focusVideoRailGo (env : RailEnv) : Nat → Nat → Nat × Nat
  | 0, d => (0, d)
  | fuel + 1, d =>
    if env.railFocused d then (1, d + 1)
    else
      let rest := focusVideoRailGo env fuel (d + 1)
      (rest.1 + 1, rest.2)

/-- Exit site of the Video-rail search loop in `addAppToFavoritesFromAppsPage`:
`breakFound` is the `break` on `currentTestId === appName`; `preStall` is the
`return false` on `currentTestId === null || (i > 0 && currentTestId ===
previousTestId)`; `postStall` is the `return false` when the awaited token
equals the pre-move token (end of rail); `exhausted` means the `for` loop
ran out of iterations without breaking. -/
inductive RailSearchExit where
  | breakFound
  | preStall
  | postStall
  | exhausted
deriving DecidableEq, Repr

/-- Search loop of `addAppToFavoritesFromAppsPage`
(`src/pages/HomeScreenPage.js` lines 183-212):

```
let previousTestId = null;
for (let i = 0; i < NAVIGATION_LIMITS.MAX_APP_SEARCH_STEPS; i++) {
  const currentTestId = await getFocusedTestId();
  if (currentTestId === appName) break;
  if (currentTestId === null || (i > 0 && currentTestId === previousTestId)) {
    ...; return false;
  }
  previousTestId = currentTestId;
  await this.remote.moveRight();
  const newTestId = await waitForFocusChange(page, getFocusedTestId,
                                             currentTestId, TIMEOUTS.POLLING);
  if (newTestId === currentTestId) { ...; return false; }
}
```

Note the strict `===` comparisons: no `normalise` here, unlike
`navigateToApp`.  Arguments past the fuel: iteration index `i` (for the
`i > 0` guard), `prev` = `previousTestId`, `t` = `testId` call counter.
Result: exit site, number of `moveRight` Commands issued, final counter. -/
def videoRailSearchGo (env : RailEnv) (appName : String) :
    Nat → Nat → Option String → Nat → RailSearchExit × Nat × Nat
  | 0, _, _, t => (.exhausted, 0, t)
  | fuel + 1, i, prev, t =>
    let currentTestId := env.testId t
    if currentTestId = some appName then (.breakFound, 0, t + 1)
    else if currentTestId = none ∨ (0 < i ∧ currentTestId = prev) then
      (.preStall, 0, t + 1)
    else
      let r := waitForFocusChange env.testId currentTestId (POLLING : Int) (t + 1)
      if r.1 = currentTestId then (.postStall, 1, r.2)
      else
        let rest := videoRailSearchGo env appName fuel (i + 1) currentTestId r.2
        (rest.1, rest.2.1 + 1, rest.2.2)

/-- Return sites of `addAppToFavoritesFromAppsPage`.  The source returns a
boolean; `added` abstracts the tail after the final verification succeeds
(select, favourites-button assertion, select, wait for home screen, select,
`return true`), which issues no further directional moves and returns true
when its assertions hold. -/
inductive RailResult where
  | notFocusedInRail
  | preStall
  | postStall
  | finalMismatch
  | added
deriving DecidableEq, Repr

/-- Boolean actually returned by `addAppToFavoritesFromAppsPage` at each
modelled return site (`added` abstracts the `return true` tail). -/
def railResultBool : RailResult → Bool
  | .added => true
  | _ => false

/-- Model of `addAppToFavoritesFromAppsPage(appName)`: the down-navigation
loop, the post-loop re-check `if (!(await isVideoRailItemFocused()))
return false`, the Video-rail search loop, and the final verification
`const finalTestId = await getFocusedTestId(); if (finalTestId !== appName)
return false`.  Result: return site, `moveDown` count, `moveRight` count. -/
def addAppToFavoritesFromAppsPage (env : RailEnv) (appName : String) :
    RailResult × Nat × Nat :=
  let dn := focusVideoRailGo env MAX_DOWN_STEPS 0
  if env.railFocused dn.2 = false then (.notFocusedInRail, dn.1, 0)
  else
    let s := videoRailSearchGo env appName MAX_APP_SEARCH_STEPS 0 none 0
    match s.1 with
    | .preStall => (.preStall, dn.1, s.2.1)
    | .postStall => (.postStall, dn.1, s.2.1)
    | _ =>
      let finalTestId := env.testId s.2.2
      if finalTestId = some appName then (.added, dn.1, s.2.1)
      else (.finalMismatch, dn.1, s.2.1)

/-- Menu item table of `NavigationBar` (`src/components/NavigationBar.js`):
`this.menuItems = { Search: {..., index: 0}, Home: {..., index: 1},
'Tv Guide': {..., index: 2}, Channels: {..., index: 3}, Gaming: {..., index: 4},
Free: {..., index: 5}, Apps: {..., index: 6} }`. -/
def menuItems : List (String × Nat) :=
  [("Search", 0), ("Home", 1), ("Tv Guide", 2), ("Channels", 3),
   ("Gaming", 4), ("Free", 5), ("Apps", 6)]

/-- Lookup `this.menuItems[menuName]` (the `index` field).  In JS the table
values are objects, always truthy, so `if (!target)` fires exactly when the
key is absent. -/
def menuIndex (menuName : String) : Option Nat :=
  (menuItems.find? (fun p => p.1 = menuName)).map (fun p => p.2)

/-- The hardcoded anchor `const homeIndex = 1;` in
`navigateToMenuItemByName`. -/
def homeIndex : Nat := 1

/-- Direction computation `target.index > homeIndex ? 'right' : 'left'`
of `navigateToMenuItemByName`, mapped to the Command the corresponding
loop issues (`remote.moveRight()` or `remote.moveLeft()`). -/
def menuDirection (targetIndex : Nat) : Command :=
  if homeIndex < targetIndex then .moveRight else .moveLeft

/-- Step computation `Math.abs(target.index - homeIndex)` of
`navigateToMenuItemByName`. -/
def menuSteps (targetIndex : Nat) : Nat :=
  ((targetIndex : Int) - (homeIndex : Int)).natAbs

/-- Environment of `navigateToMenuItemByName`: `homeFocusedAfterUp` is the
`data-focused` attribute of the Home item observed by the anchor assertion
after `remote.moveUp(2)`; `targetAttr` is the call stream of
`target.item.getAttribute('data-focused')` results. -/
structure MenuEnv where
  homeFocusedAfterUp : Option String
  targetAttr : Nat → Option String

/-- Failure modes of `navigateToMenuItemByName`: `unknownTarget` is the
`throw new Error(...)` for a name absent from `menuItems`;
`anchorAssertFailed` and `finalAssertFailed` are the two
`expect(...).toHaveAttribute('data-focused', 'focused')` assertions. -/
inductive MenuError where
  | unknownTarget
  | anchorAssertFailed
  | finalAssertFailed
deriving DecidableEq, Repr

/-- Horizontal loop of `navigateToMenuItemByName` (both branches have the
same shape, differing only in the Command issued):

```
for (let i = 0; i < Math.min(steps, maxSteps); i++) {
  const isFocused = await target.item.getAttribute('data-focused');
  if (isFocused === 'focused') break;
  await remote.moveRight();   // or remote.moveLeft()
}
```

`a` is the `targetAttr` call counter; returns the number of horizontal
moves issued and the counter after the loop. -/
def menuLoopGo (attr : Nat → Option String) : Nat → Nat → Nat × Nat
  | 0, a => (0, a)
  | fuel + 1, a =>
    if attr a = some "focused" then (0, a + 1)
    else
      let rest := menuLoopGo attr fuel (a + 1)
      (rest.1 + 1, rest.2)

/-- Model of `NavigationBar.navigateToMenuItemByName(remote, menuName,
maxSteps)` (`src/components/NavigationBar.js`):

1. `const target = this.menuItems[menuName]; if (!target) throw ...` —
   before any input is sent;
2. `await remote.moveUp(2)` — two Up Commands — then the anchor assertion
   on the Home item;
3. direction and step computation, then the bounded horizontal loop;
4. the final assertion on the target item (modelled as one fresh read of
   `targetAttr`).

Result: `Except` outcome and the list of Commands issued, in order. -/
def navigateToMenuItemByName (env : MenuEnv) (menuName : String) (maxSteps : Nat) :
    Except MenuError Unit × List Command :=
  match menuIndex menuName with
  | none => (.error .unknownTarget, [])
  | some idx =>
    if env.homeFocusedAfterUp ≠ some "focused" then
      (.error .anchorAssertFailed, [.moveUp, .moveUp])
    else
      let lr := menuLoopGo env.targetAttr (min (menuSteps idx) maxSteps) 0
      let cmds := [Command.moveUp, Command.moveUp] ++
        List.replicate lr.1 (menuDirection idx)
      if env.targetAttr lr.2 = some "focused" then (.ok (), cmds)
      else (.error .finalAssertFailed, cmds)

/-! ## Lemmas about the Focus Observer -/

/-- If every poll within the timeout window reads `previousValue`, the loop
value is `previousValue`. -/
lemma wfcGo_fst_all_eq (acc : Nat → Option String) (prev : Option String)
    (timeout : Int) :
    ∀ fuel k c,
      (∀ m, (((k + m) * POLLING_INTERVAL : Nat) : Int) < timeout → acc (c + m) = prev) →
      (waitForFocusChangeGo acc prev timeout k c fuel).1 = prev := by
  intro fuel
  induction fuel with
  | zero => intro k c _; simp [waitForFocusChangeGo]
  | succ f ih =>
    intro k c hall
    simp only [waitForFocusChangeGo]
    split_ifs with h1 h2
    · exact absurd (by simpa using hall 0 (by simpa using h1)) h2
    · exact ih (k + 1) (c + 1) (fun m hm => by
        have := hall (m + 1) (by
          have he : k + 1 + m = k + (m + 1) := by omega
          rw [he] at hm
          exact hm)
        have hc : c + 1 + m = c + (m + 1) := by omega
        rw [hc]
        exact this)
    · rfl

/-- If the first `m` polls read `previousValue` and poll `m` (still inside
the timeout window) reads something else, the loop returns that value and
has consumed exactly `m + 1` accessor calls. -/
lemma wfcGo_first (acc : Nat → Option String) (prev : Option String)
    (timeout : Int) :
    ∀ m k c fuel, m < fuel →
      (∀ j, j < m → acc (c + j) = prev) →
      acc (c + m) ≠ prev →
      (((k + m) * POLLING_INTERVAL : Nat) : Int) < timeout →
      waitForFocusChangeGo acc prev timeout k c fuel = (acc (c + m), c + m + 1) := by
  intro m
  induction m with
  | zero =>
    intro k c fuel hfuel _ hne htime
    obtain ⟨f, rfl⟩ : ∃ f, fuel = f + 1 := ⟨fuel - 1, by omega⟩
    simp only [waitForFocusChangeGo]
    have hk : ((k * POLLING_INTERVAL : Nat) : Int) < timeout := by simpa using htime
    have hne' : acc c ≠ prev := by simpa using hne
    split_ifs
    simp
  | succ m ih =>
    intro k c fuel hfuel hprev hne htime
    obtain ⟨f, rfl⟩ : ∃ f, fuel = f + 1 := ⟨fuel - 1, by omega⟩
    simp only [waitForFocusChangeGo]
    have hk : ((k * POLLING_INTERVAL : Nat) : Int) < timeout := by
      simp only [POLLING_INTERVAL] at htime ⊢
      have hle : ((k * 50 : Nat) : Int) ≤ (((k + (m + 1)) * 50 : Nat) : Int) := by
        push_cast
        omega
      omega
    have h0 : acc c = prev := by
      have := hprev 0 (by omega)
      simpa using this
    split_ifs with h1
    · exact absurd h0 h1
    · have hres := ih (k + 1) (c + 1) f (by omega)
        (fun j hj => by
          have := hprev (j + 1) (by omega)
          have hc : c + 1 + j = c + (j + 1) := by omega
          rw [hc]
          exact this)
        (by
          have hc : c + 1 + m = c + (m + 1) := by omega
          rw [hc]
          exact hne)
        (by
          have hk' : k + 1 + m = k + (m + 1) := by omega
          rw [hk']
          exact htime)
      rw [hres]
      have hc1 : c + 1 + m = c + (m + 1) := by omega
      rw [hc1]

/-- A poll index inside the timeout window is below the fuel supplied by
`waitForFocusChange`. -/
lemma poll_lt_fuel (timeout : Int) (m : Nat)
    (h : ((m * POLLING_INTERVAL : Nat) : Int) < timeout) :
    m < timeout.toNat / POLLING_INTERVAL + 1 := by
  simp only [POLLING_INTERVAL] at h ⊢
  have hm : (m * 50 : Nat) < timeout.toNat := by omega
  have : m ≤ timeout.toNat / 50 := by
    rw [Nat.le_div_iff_mul_le (by omega)]
    omega
  omega

/-- C3.  `awaitChange` (`waitForFocusChange`) returns the first polled token
differing from `previous` as soon as it is observed (consuming exactly that
many accessor calls), and returns `previous` unchanged when every poll
inside the timeout window reads `previous`; the function is total, so no
exception is possible.  The spec scenario (sequence A, A, B with a timeout
covering at least three polls returns B) is the witness instance. -/
theorem c3_awaitChange_first_change_or_previous :
    (∀ (acc : Nat → Option String) (prev : Option String) (timeout : Int) (c m : Nat),
        (∀ j, j < m → acc (c + j) = prev) →
        acc (c + m) ≠ prev →
        (((m * POLLING_INTERVAL : Nat) : Int) < timeout) →
        waitForFocusChange acc prev timeout c = (acc (c + m), c + m + 1)) ∧
    (∀ (acc : Nat → Option String) (prev : Option String) (timeout : Int) (c : Nat),
        (∀ j, (((j * POLLING_INTERVAL : Nat) : Int) < timeout) → acc (c + j) = prev) →
        (waitForFocusChange acc prev timeout c).1 = prev) := by
  constructor
  · intro acc prev timeout c m hprev hne htime
    unfold waitForFocusChange
    exact wfcGo_first acc prev timeout m 0 c _
      (poll_lt_fuel timeout m htime) hprev hne (by simpa using htime)
  · intro acc prev timeout c hall
    unfold waitForFocusChange
    exact wfcGo_fst_all_eq acc prev timeout _ 0 c (fun m hm => hall m (by simpa using hm))

/-- Witness for C3: the spec scenario.  The accessor produces A, A, B, ...;
with `previous = A` and timeout 200 (four poll slots at interval 50), the
change is observed at poll 2 and B is returned. -/
theorem c3_witness :
    waitForFocusChange (fun k => if k < 2 then some "A" else some "B")
      (some "A") 200 0 = (some "B", 3) := by
  have h := c3_awaitChange_first_change_or_previous.1
    (fun k => if k < 2 then some "A" else some "B") (some "A") 200 0 2
    (by decide) (by decide) (by decide)
  simpa using h

/-- C9.  Calling `waitForFocusChange` with `timeout ≤ 0` never enters the
loop body (the guard `Date.now() - startTime < timeout` is false at once),
so the accessor is never invoked — the call counter is unchanged — and
`previousValue` is returned regardless of the actual focus state. -/
theorem c9_zero_timeout_no_poll
    (acc : Nat → Option String) (prev : Option String) (timeout : Int) (c : Nat)
    (h : timeout ≤ 0) :
    waitForFocusChange acc prev timeout c = (prev, c) := by
  unfold waitForFocusChange
  simp only [waitForFocusChangeGo]
  split_ifs with h1 h2
  · exact absurd h1 (by simp only [Nat.zero_mul, Nat.cast_zero]; omega)
  · exact absurd h1 (by simp only [Nat.zero_mul, Nat.cast_zero]; omega)
  · rfl

/-- Witness for C9 at timeout 0: the accessor would report a change
(`some "B"` vs previous `some "A"`), yet the zero-timeout await reports no
change and consumes no accessor call. -/
theorem c9_witness :
    waitForFocusChange (fun _ => some "B") (some "A") 0 5 = (some "A", 5) :=
  c9_zero_timeout_no_poll (fun _ => some "B") (some "A") 0 5 (by decide)

/-! ## Lemmas about the Favourite-Apps rail search -/

/-- The rail search issues at most `fuel` `moveRight` Commands. -/
lemma navGo_moves_le (acc : Nat → Option String) (target : String) :
    ∀ fuel c, (navigateToAppGo acc target fuel c).2.1 ≤ fuel := by
  intro fuel
  induction fuel with
  | zero => intro c; simp [navigateToAppGo]
  | succ f ih =>
    intro c
    simp only [navigateToAppGo]
    split_ifs with h1 h2
    · simp
    · simp
    · have h := ih (waitForFocusChange acc (acc c) (FOCUS_CHANGE : Int) (c + 1)).2
      simp only [Prod.fst, Prod.snd]
      omega

/-- If the first read of a loop iteration matches the (normalised) target,
the search returns `Found` at once with no Command issued. -/
lemma nav_found_first (acc : Nat → Option String) (target : String) (fuel c : Nat)
    (h1 : truthy (acc c) = true) (h2 : normalise (acc c) = target) :
    navigateToAppGo acc target (fuel + 1) c = (.Found, 0, c + 1) := by
  simp only [navigateToAppGo]
  rw [if_pos ⟨h1, h2⟩]

/-- C1 (corrected claim).  `navigateToApp` checks the loop bound before
reading or comparing anything: with `maxSteps = 0` it returns
`StepLimitExceeded` with no Command sent and no accessor call consumed,
regardless of the focus state; with `maxSteps ≥ 1` the target comparison
at the start of the iteration precedes the `moveRight`, so a matching
initial token yields `Found` with zero Commands issued and one accessor
call consumed. -/
theorem c1_amended_budget_checked_before_comparison :
    (∀ (acc : Nat → Option String) (appName : String),
        navigateToApp acc appName 0 = (.StepLimitExceeded, 0, 0)) ∧
    (∀ (acc : Nat → Option String) (appName : String) (fuel : Nat),
        truthy (acc 0) = true →
        normalise (acc 0) = normalise (some appName) →
        navigateToApp acc appName (fuel + 1) = (.Found, 0, 1)) := by
  constructor
  · intro acc appName
    rfl
  · intro acc appName fuel h1 h2
    exact nav_found_first acc (normalise (some appName)) fuel 0 h1 h2

/-- Counterexample to C1 as stated: the accessor reports a token equal
(after normalisation) to the target, yet with `stepBudget = 0` the call
returns `StepLimitExceeded`, not `Found` — the budget check precedes the
target-equality check, contrary to the claim. -/
theorem c1_counterexample :
    navigateToApp (fun _ => some "netflix") "Netflix" 0 =
      (.StepLimitExceeded, 0, 0) ∧
    truthy (some "netflix") = true ∧
    normalise (some "netflix") = normalise (some "Netflix") ∧
    SearchOutcome.StepLimitExceeded ≠ SearchOutcome.Found := by
  refine ⟨rfl, rfl, by decide, by decide⟩

/-- Witness for the amended C1: a case-insensitively matching initial
token is found at once when the budget is positive. -/
theorem c1_amended_witness :
    navigateToApp (fun _ => some "Netflix") "netflix" 1 = (.Found, 0, 1) :=
  c1_amended_budget_checked_before_comparison.2
    (fun _ => some "Netflix") "netflix" 0 (by decide) (by decide)

/-- C2 (corrected claim).  The Favourite-Apps rail search (`navigateToApp`)
normalises both sides of the comparison, so a target differing from the
focused token only by case or surrounding whitespace is found — in
particular target `"X "` against focused token `"X"` returns `Found`
immediately.  (The Video-rail search of `addAppToFavoritesFromAppsPage`
does not normalise; see the counterexample.) -/
theorem c2_amended_normalised_comparison :
    (∀ (acc : Nat → Option String) (appName : String) (fuel : Nat),
        truthy (acc 0) = true →
        normalise (acc 0) = normalise (some appName) →
        navigateToApp acc appName (fuel + 1) = (.Found, 0, 1)) ∧
    navigateToApp (fun _ => some "X") "X " 5 = (.Found, 0, 1) := by
  constructor
  · intro acc appName fuel h1 h2
    exact nav_found_first acc (normalise (some appName)) fuel 0 h1 h2
  · exact nav_found_first (fun _ => some "X") (normalise (some "X ")) 4 0
      (by decide) (by decide)

/-- Counterexample to C2 as stated: not every directional search
normalises.  The Video-rail search of `addAppToFavoritesFromAppsPage`
compares test ids with strict `===`: with the accessor always returning
`"X"` and target `"X "` (equal after normalisation), it does not report
success — it issues one `moveRight`, observes no focus change, and
returns false. -/
theorem c2_counterexample :
    addAppToFavoritesFromAppsPage ⟨fun _ => true, fun _ => some "X"⟩ "X " =
      (.postStall, 1, 1) ∧
    railResultBool RailResult.postStall = false ∧
    normalise (some "X") = normalise (some "X ") := by
  refine ⟨by decide, rfl, by decide⟩

/-- Witness for the amended C2: a token differing from the target by case
and trailing whitespace is found immediately by `navigateToApp`. -/
theorem c2_amended_witness :
    navigateToApp (fun _ => some "Hulu ") "hulu" 3 = (.Found, 0, 1) :=
  c2_amended_normalised_comparison.1
    (fun _ => some "Hulu ") "hulu" 2 (by decide) (by decide)

/-- C4.  When the token awaited after a `moveRight` equals the pre-move
token (no focus change within the timeout), the search stops at once and
returns `EndOfCollection` as ordinary data: exactly the one `moveRight` of
this step is counted and no further Command follows.  The embedding is a
total function into `SearchOutcome`, mirroring that the source returns
`false` here and throws nothing. -/
theorem c4_stall_returns_endOfCollection
    (acc : Nat → Option String) (target : String) (c fuel : Nat)
    (hmatch : ¬ (truthy (acc c) = true ∧ normalise (acc c) = target))
    (hstall : (waitForFocusChange acc (acc c) (FOCUS_CHANGE : Int) (c + 1)).1 = acc c) :
    navigateToAppGo acc target (fuel + 1) c =
      (.EndOfCollection, 1,
        (waitForFocusChange acc (acc c) (FOCUS_CHANGE : Int) (c + 1)).2) := by
  simp only [navigateToAppGo]
  rw [if_neg hmatch, if_pos hstall]

/-- Witness for C4: an accessor frozen on `"A"` while searching for `"b"`
stalls on the first step; the search returns `EndOfCollection` having
issued exactly one `moveRight`, with 11 accessor calls consumed (one
loop read plus ten polls of the 500 ms window). -/
theorem c4_witness :
    navigateToAppGo (fun _ => some "A") "b" 8 0 = (.EndOfCollection, 1, 11) := by
  have h := c4_stall_returns_endOfCollection (fun _ => some "A") "b" 0 7
    (by decide) (by decide)
  exact h.trans (by decide)

/-- C5.  `navigateToApp` is a total function (the loop is bounded by
`maxSteps` and each focus await by its timeout), and for every budget and
every accessor behaviour it issues at most `maxSteps` `moveRight`
Commands. -/
theorem c5_search_bounded_by_budget
    (acc : Nat → Option String) (appName : String) (maxSteps : Nat) :
    (navigateToApp acc appName maxSteps).2.1 ≤ maxSteps :=
  navGo_moves_le acc (normalise (some appName)) maxSteps 0

/-- C6 (corrected claim).  Null/empty tokens are special-cased by the guard
`currentId && ...`: a `null` or `""` read is falsy and never matches, even
when the target itself normalises to the empty string.  With a null first
read and empty target the search does not return `Found` — it moves right
and (here, with focus frozen) ends with `EndOfCollection` after one
Command.  The only way an empty-normalised target is found is a truthy,
whitespace-only token, which normalises to `""`. -/
theorem c6_amended_null_token_never_matches :
    truthy none = false ∧
    truthy (some "") = false ∧
    normalise (some "") = "" ∧
    navigateToApp (fun _ => none) "" 1 = (.EndOfCollection, 1, 11) ∧
    navigateToApp (fun _ => some " ") "" 1 = (.Found, 0, 1) := by
  refine ⟨rfl, by decide, by decide, by decide, by decide⟩

/-- Counterexample to C6 as stated: a null first observed token with an
empty-normalised target does not yield `Found`; the call returns
`EndOfCollection` after issuing a `moveRight`. -/
theorem c6_counterexample :
    navigateToApp (fun _ => none) "" 1 = (.EndOfCollection, 1, 11) ∧
    SearchOutcome.EndOfCollection ≠ SearchOutcome.Found ∧
    normalise (some "") = "" := by
  refine ⟨by decide, by decide, by decide⟩

/-! ## Lemmas about the menu resolution algorithm -/

/-- The horizontal menu loop issues at most `fuel` moves. -/
lemma menuLoopGo_moves_le (attr : Nat → Option String) :
    ∀ fuel a, (menuLoopGo attr fuel a).1 ≤ fuel := by
  intro fuel
  induction fuel with
  | zero => intro a; simp [menuLoopGo]
  | succ f ih =>
    intro a
    simp only [menuLoopGo]
    split_ifs with h1
    · simp
    · have h := ih (a + 1)
      simp only [Prod.fst]
      omega

/-- If the target is already focused at the first check, the menu loop
issues no move. -/
lemma menuLoopGo_first_focused (attr : Nat → Option String) (fuel a : Nat)
    (h : attr a = some "focused") :
    (menuLoopGo attr fuel a).1 = 0 := by
  cases fuel with
  | zero => rfl
  | succ f => simp [menuLoopGo, h]

/-- C7.  `navigateToMenuItemByName` with a `menuName` absent from the
static `menuItems` table throws (`unknownTarget`) before any input: the
Command list is empty and the result does not depend on the UI
environment at all. -/
theorem c7_unknownTarget_fails_fast
    (env : MenuEnv) (menuName : String) (maxSteps : Nat)
    (h : menuIndex menuName = none) :
    navigateToMenuItemByName env menuName maxSteps =
      (.error .unknownTarget, []) := by
  unfold navigateToMenuItemByName
  rw [h]

/-- Witness for C7: `"Foo"` is not a menu item; even in an environment
that would satisfy every assertion, the call fails with `unknownTarget`
and no Command is issued. -/
theorem c7_witness :
    navigateToMenuItemByName ⟨some "focused", fun _ => some "focused"⟩ "Foo" 10 =
      (.error .unknownTarget, []) :=
  c7_unknownTarget_fails_fast ⟨some "focused", fun _ => some "focused"⟩ "Foo" 10
    (by decide)

/-- C8.  For a known target, the menu resolution computes
direction Right exactly when the target index exceeds the anchor index 1
(Left otherwise) and `steps = |targetIndex - 1|`; the run issues the two
anchor `moveUp`s followed by at most `min(steps, maxSteps)` moves in the
computed direction, and a target already focused at the first check is
never moved towards (early exit).  For `"Apps"` (index 6) the direction is
Right with 5 steps, so at most 5 `moveRight`s are issued. -/
theorem c8_menu_direction_steps_bound :
    (∀ idx, 1 < idx → menuDirection idx = Command.moveRight) ∧
    (∀ idx, idx ≤ 1 → menuDirection idx = Command.moveLeft) ∧
    menuIndex "Apps" = some 6 ∧
    menuDirection 6 = Command.moveRight ∧
    menuSteps 6 = 5 ∧
    (∀ (env : MenuEnv) (menuName : String) (idx maxSteps : Nat),
        menuIndex menuName = some idx →
        ∃ k, (navigateToMenuItemByName env menuName maxSteps).2 =
            [Command.moveUp, Command.moveUp] ++
              List.replicate k (menuDirection idx) ∧
          k ≤ min (menuSteps idx) maxSteps) ∧
    (∀ (env : MenuEnv) (menuName : String) (idx maxSteps : Nat),
        menuIndex menuName = some idx →
        env.homeFocusedAfterUp = some "focused" →
        env.targetAttr 0 = some "focused" →
        (navigateToMenuItemByName env menuName maxSteps).2 =
          [Command.moveUp, Command.moveUp]) := by
  refine ⟨?_, ?_, by decide, by decide, by decide, ?_, ?_⟩
  · intro idx h
    unfold menuDirection homeIndex
    rw [if_pos h]
  · intro idx h
    unfold menuDirection homeIndex
    rw [if_neg (by omega)]
  · intro env menuName idx maxSteps h
    simp only [navigateToMenuItemByName, h]
    by_cases ha : env.homeFocusedAfterUp ≠ some "focused"
    · rw [if_pos ha]
      exact ⟨0, by simp, by omega⟩
    · rw [if_neg ha]
      refine ⟨(menuLoopGo env.targetAttr (min (menuSteps idx) maxSteps) 0).1, ?_, ?_⟩
      · by_cases hf : env.targetAttr
            (menuLoopGo env.targetAttr (min (menuSteps idx) maxSteps) 0).2 = some "focused"
        · rw [if_pos hf]
        · rw [if_neg hf]
      · exact menuLoopGo_moves_le env.targetAttr (min (menuSteps idx) maxSteps) 0
  · intro env menuName idx maxSteps h ha hf
    simp only [navigateToMenuItemByName, h]
    rw [if_neg (by simp [ha])]
    have h0 : (menuLoopGo env.targetAttr (min (menuSteps idx) maxSteps) 0).1 = 0 :=
      menuLoopGo_first_focused env.targetAttr (min (menuSteps idx) maxSteps) 0 hf
    by_cases hfin : env.targetAttr
        (menuLoopGo env.targetAttr (min (menuSteps idx) maxSteps) 0).2 = some "focused"
    · rw [if_pos hfin]
      simp [h0]
    · rw [if_neg hfin]
      simp [h0]

/-- Witness for C8: resolving `"Apps"` with `maxSteps = 10` in an
environment whose target never reports focus: the issued Commands are the
two `moveUp`s plus at most `min(menuSteps 6, 10) = 5` moves in direction
`menuDirection 6 = moveRight`. -/
theorem c8_witness :
    ∃ k, (navigateToMenuItemByName ⟨some "focused", fun _ => none⟩ "Apps" 10).2 =
        [Command.moveUp, Command.moveUp] ++ List.replicate k (menuDirection 6) ∧
      k ≤ min (menuSteps 6) 10 :=
  c8_menu_direction_steps_bound.2.2.2.2.2.1
    ⟨some "focused", fun _ => none⟩ "Apps" 6 10 (by decide)

/-! ## Lemmas about the Video-rail search -/

/-- A null loop-start read aborts the Video-rail search at once: `preStall`
with zero further moves, one accessor call consumed. -/
lemma vrs_null_read (env : RailEnv) (appName : String)
    (fuel i : Nat) (prev : Option String) (t : Nat)
    (h : env.testId t = none) :
    videoRailSearchGo env appName (fuel + 1) i prev t = (.preStall, 0, t + 1) := by
  simp only [videoRailSearchGo]
  rw [if_neg (by rw [h]; exact fun hc => Option.noConfusion hc)]
  rw [if_pos (Or.inl h)]

/-- After the first iteration, a loop-start read equal to the previous
iteration's loop-start read (which did not match the target) aborts the
Video-rail search at once. -/
lemma vrs_repeat_read (env : RailEnv) (appName : String)
    (fuel i : Nat) (prev : Option String) (t : Nat)
    (hi : 0 < i) (h : env.testId t = prev) (hp : prev ≠ some appName) :
    videoRailSearchGo env appName (fuel + 1) i prev t = (.preStall, 0, t + 1) := by
  simp only [videoRailSearchGo]
  rw [if_neg (fun hc => hp (h.symm.trans hc))]
  rw [if_pos (Or.inr ⟨hi, h⟩)]

/-- C10.  The Video-rail app search of `addAppToFavoritesFromAppsPage`
performs a pre-move stall check in addition to the post-move focus-change
check: it returns false with no further move whenever a loop-start read is
null, or (after the first iteration) equals the previous loop-start read;
consequently two consecutive identical loop-start reads always abort the
search — the iteration that read the token first does not match the target
(else it would have broken out), so when the next loop-start read repeats
it, the search returns false having issued only that iteration's single
`moveRight`. -/
theorem c10_preStall_aborts :
    (∀ (env : RailEnv) (appName : String) (fuel i : Nat)
        (prev : Option String) (t : Nat),
        env.testId t = none →
        videoRailSearchGo env appName (fuel + 1) i prev t = (.preStall, 0, t + 1)) ∧
    (∀ (env : RailEnv) (appName : String) (fuel i : Nat)
        (prev : Option String) (t : Nat),
        0 < i → env.testId t = prev → prev ≠ some appName →
        videoRailSearchGo env appName (fuel + 1) i prev t = (.preStall, 0, t + 1)) ∧
    (∀ (env : RailEnv) (appName : String) (fuel i : Nat)
        (prev : Option String) (t : Nat),
        env.testId t ≠ some appName →
        env.testId t ≠ none →
        (i = 0 ∨ env.testId t ≠ prev) →
        (waitForFocusChange env.testId (env.testId t) (POLLING : Int) (t + 1)).1 ≠
          env.testId t →
        env.testId (waitForFocusChange env.testId (env.testId t) (POLLING : Int) (t + 1)).2 =
          env.testId t →
        videoRailSearchGo env appName (fuel + 1 + 1) i prev t =
          (.preStall, 1,
            (waitForFocusChange env.testId (env.testId t) (POLLING : Int) (t + 1)).2 + 1)) ∧
    railResultBool RailResult.preStall = false ∧
    railResultBool RailResult.postStall = false := by
  refine ⟨vrs_null_read, vrs_repeat_read, ?_, rfl, rfl⟩
  intro env appName fuel i prev t hne hnn hfirst hmove hrepeat
  have hstep : videoRailSearchGo env appName (fuel + 1 + 1) i prev t =
      (let r := waitForFocusChange env.testId (env.testId t) (POLLING : Int) (t + 1)
       let rest := videoRailSearchGo env appName (fuel + 1) (i + 1) (env.testId t) r.2
       (rest.1, rest.2.1 + 1, rest.2.2)) := by
    simp only [videoRailSearchGo]
    rw [if_neg hne]
    rw [if_neg (by
      rintro (hc | ⟨hci, hcp⟩)
      · exact hnn hc
      · rcases hfirst with h0 | hdiff
        · omega
        · exact hdiff hcp)]
    rw [if_neg hmove]
  rw [hstep]
  have hrest := vrs_repeat_read env appName fuel (i + 1) (env.testId t)
    (waitForFocusChange env.testId (env.testId t) (POLLING : Int) (t + 1)).2
    (by omega) hrepeat hne
  simp only [hrest]

/-- Witness for C10: with the Video-rail accessor reporting no focused item
(null), the search aborts on its very first read with no move issued. -/
theorem c10_witness :
    videoRailSearchGo ⟨fun _ => true, fun _ => none⟩ "Netflix" 100 0 none 0 =
      (.preStall, 0, 1) :=
  c10_preStall_aborts.1 ⟨fun _ => true, fun _ => none⟩ "Netflix" 99 0 none 0 rfl

end WebTV
